import Mathlib

/-!
Verification of the anvil-region region-file engine (`src/region.rs`).

The engine is embedded shallowly:

* A byte source (a `std::io::Cursor<Vec<u8>>`-style random-access store, or a
  file opened read-write) is a `Source`: a byte array modelled as its length
  `size` together with the indexing function `byteAt`, plus the cursor `pos`.
  Writing at a position past the end zero-fills the gap, exactly as
  `Cursor<Vec<u8>>` does.
* Machine integers are `Nat` with explicit `% 2^w` at the points where the
  Rust code truncates or wraps (release-mode wrapping semantics; the
  `debug_assert!`s of the source are compiled out in release builds and are
  not modelled).
* The NBT codec (`nbt::encode::write_zlib_compound_tag`,
  `nbt::decode::read_zlib_compound_tag`, `read_gzip_compound_tag`) is an
  external collaborator; payloads are opaque byte lists and the
  encoder/decoder are parameters of the theorems that need them.
  `Region.writeChunk` takes the already-encoded zlib byte stream (the bytes
  that `write_zlib_compound_tag` appends to the scratch buffer), and
  `Region.readChunkRaw` returns the compression scheme together with the raw
  compressed bytes read from the slab.
* Fallible operations return `Except`; the only I/O failure a cursor-backed
  source can produce is reading past the end (`UnexpectedEof`), which is the
  `.error ()` of `Source.readExact`.  `read_chunk`/`write_chunk` also move
  the source cursor on their error paths; since every operation of the
  engine seeks absolutely (or appends at the end) before touching bytes, the
  cursor value never influences any result, and error results are modelled
  as plain `Except.error` values.
-/

namespace AnvilRegion

/-- A random-access byte store with a cursor: `size` is the byte length,
`byteAt i` the byte at offset `i` (meaningful for `i < size`), `pos` the
seek position. -/
structure Source where
  size : Nat
  byteAt : Nat → Nat
  pos : Nat

/-- Seek to an absolute position (`SeekFrom::Start`). -/
def Source.seekStart (s : Source) (n : Nat) : Source :=
  ⟨s.size, s.byteAt, n⟩

/-- The `SeekExt::len` helper: seek to the end to learn the length, then
restore the cursor.  When the saved position already equals the length the
restore is skipped, but the cursor then already sits at the length, so the
cursor is preserved in every case and `len` is pure. -/
def Source.len (s : Source) : Nat :=
  s.size

/-- The `Write::write_all` of a `Cursor<Vec<u8>>`: overwrite the bytes `b`
at the current position, zero-filling any gap between the old end and the
position, extending the store when the write runs past the end, and advance
the cursor. -/
def Source.writeAll (s : Source) (b : List Nat) : Source :=
  ⟨max s.size (s.pos + b.length),
    fun i =>
      if s.pos ≤ i ∧ i < s.pos + b.length then b.getD (i - s.pos) 0
      else if i < s.size then s.byteAt i
      else 0,
    s.pos + b.length⟩

/-- The `SeekWriteExt::extend_len` helper: remember the cursor, seek to the
end, append zeros when `newLen` exceeds the current length, and seek back to
the remembered cursor only when it differs from the old length. -/
def Source.extendLen (s : Source) (newLen : Nat) : Source :=
  let oldPos := s.pos
  let len := s.size
  let sEnd : Source := ⟨s.size, s.byteAt, len⟩
  let s1 := if newLen > len then sEnd.writeAll (List.replicate (newLen - len) 0) else sEnd
  if oldPos ≠ len then s1.seekStart oldPos else s1

/-- The contiguous byte range of length `n` starting at offset `q`. -/
def Source.extract (s : Source) (q n : Nat) : List Nat :=
  (List.range n).map fun j => s.byteAt (q + j)

/-- The `Read::read_exact` of the cursor: succeed with exactly `n` bytes or
fail (`UnexpectedEof`) when fewer than `n` bytes remain. -/
def Source.readExact (s : Source) (n : Nat) : Except Unit (List Nat × Source) :=
  if s.pos + n ≤ s.size then
    .ok (s.extract s.pos n, ⟨s.size, s.byteAt, s.pos + n⟩)
  else
    .error ()

/-- Big-endian value of a byte list (`byteorder::BigEndian`). -/
def beToNat (b : List Nat) : Nat :=
  b.foldl (fun a x => a * 256 + x) 0

/-- The four big-endian bytes of `n` as a `u32` (higher bits of `n` are
truncated, matching an `as u32` cast). -/
def natToBe4 (n : Nat) : List Nat :=
  [n / 16777216 % 256, n / 65536 % 256, n / 256 % 256, n % 256]

/-- `ReadBytesExt::read_u32::<BigEndian>`. -/
def Source.readU32 (s : Source) : Except Unit (Nat × Source) :=
  match s.readExact 4 with
  | .ok (b, s') => .ok (beToNat b, s')
  | .error e => .error e

/-- `ReadBytesExt::read_u8`. -/
def Source.readU8 (s : Source) : Except Unit (Nat × Source) :=
  match s.readExact 1 with
  | .ok (b, s') => .ok (b.getD 0 0, s')
  | .error e => .error e

/-- `WriteBytesExt::write_u32::<BigEndian>`. -/
def Source.writeU32 (s : Source) (n : Nat) : Source :=
  s.writeAll (natToBe4 n)

/-- Amount of chunks in region (`REGION_CHUNKS`). -/
def REGION_CHUNKS : Nat := 1024

/-- Length of chunks metadata in region (`REGION_CHUNKS_METADATA_LENGTH`). -/
def REGION_CHUNKS_METADATA_LENGTH : Nat := 2 * REGION_CHUNKS

/-- Region header length in bytes (`REGION_HEADER_BYTES_LENGTH`). -/
def REGION_HEADER_BYTES_LENGTH : Nat := 8 * REGION_CHUNKS

/-- Region sector length in bytes (`REGION_SECTOR_BYTES_LENGTH`, a `u16`). -/
def REGION_SECTOR_BYTES_LENGTH : Nat := 4096

/-- Maximum chunk length in bytes (`CHUNK_MAXIMUM_BYTES_LENGTH`). -/
def CHUNK_MAXIMUM_BYTES_LENGTH : Nat := REGION_SECTOR_BYTES_LENGTH * 256

/-- Gzip compression type value. -/
def GZIP_COMPRESSION_TYPE : Nat := 1

/-- Zlib compression type value. -/
def ZLIB_COMPRESSION_TYPE : Nat := 2

/-- Chunk metadata stored in the header: `start_sector_index : u32`,
`sectors : u8`, `last_modified_timestamp : u32`. -/
structure ChunkMetadata where
  startSectorIndex : Nat
  sectors : Nat
  lastModifiedTimestamp : Nat
deriving DecidableEq

/-- The `Default` instance of `ChunkMetadata`: all fields zero. -/
def ChunkMetadata.default : ChunkMetadata :=
  ⟨0, 0, 0⟩

/-- `ChunkMetadata::new`. -/
def ChunkMetadata.new (startSectorIndex sectors lastModifiedTimestamp : Nat) : ChunkMetadata :=
  ⟨startSectorIndex, sectors, lastModifiedTimestamp⟩

/-- `ChunkMetadata::is_empty`: the slot is absent when `sectors == 0`. -/
def ChunkMetadata.isEmpty (m : ChunkMetadata) : Bool :=
  m.sectors == 0

/-- Region represents a 32x32 group of chunks: coordinates (diagnostic
only), the byte source, the 1024-entry metadata table and the used-sector
bitmap. -/
structure Region where
  x : Int
  z : Int
  source : Source
  chunksMetadata : List ChunkMetadata
  usedSectors : List Bool

/-- `metadata_index`: slot index of local chunk coordinates.  The
`debug_assert!` bounds checks of the source are compiled out in release
builds and are not modelled. -/
def metadataIndex (regionChunkX regionChunkZ : Nat) : Nat :=
  regionChunkX + regionChunkZ * 32

/-- `Region::get_metadata`: the metadata table entry of the slot.  The Rust
code indexes the 1024-entry array (panicking beyond its end); theorems only
instantiate indices below 1024. -/
def Region.getMetadata (r : Region) (regionChunkX regionChunkZ : Nat) : ChunkMetadata :=
  r.chunksMetadata.getD (metadataIndex regionChunkX regionChunkZ) ChunkMetadata.default

/-- Set every bit of `[start, stop)` to `v` (a `for index in start..stop`
loop of `BitVec::set` calls). -/
def setRange (l : List Bool) (start stop : Nat) (v : Bool) : List Bool :=
  (List.range (stop - start)).foldl (fun acc i => acc.set (start + i) v) l

/-- The free function `used_sectors`: derive the used-sector bitmap from the
metadata table.  The first two sectors hold the header. -/
def usedSectors (totalSectors : Nat) (chunksMetadata : List ChunkMetadata) : List Bool :=
  let init := ((List.replicate totalSectors false).set 0 true).set 1 true
  chunksMetadata.foldl
    (fun acc metadata =>
      if metadata.isEmpty then acc
      else setRange acc metadata.startSectorIndex
        (metadata.startSectorIndex + metadata.sectors) true)
    init

/-- Read `n` consecutive big-endian `u32` values. -/
def readWords : Nat → Source → Except Unit (List Nat × Source)
  | 0, s => .ok ([], s)
  | n + 1, s =>
    match s.readU32 with
    | .error e => .error e
    | .ok (w, s') =>
      match readWords n s' with
      | .error e => .error e
      | .ok (ws, s'') => .ok (w :: ws, s'')

/-- Split the 2048 header words into the metadata table: entry `i` is built
from location word `values[i]` (high 24 bits the start sector, low 8 bits
the sector count) and timestamp word `values[1024 + i]`. -/
def metadataOfWords (values : List Nat) : List ChunkMetadata :=
  (List.range REGION_CHUNKS).map fun index =>
    let offset := values.getD index 0
    let lastModifiedTimestamp := values.getD (REGION_CHUNKS + index) 0
    ChunkMetadata.new (offset / 256) (offset % 256) lastModifiedTimestamp

/-- `Region::read_header`: an all-absent table when the source is shorter
than the 8192-byte header, otherwise parse the 2048 words. -/
def readHeader (source : Source) (sourceLen : Nat) :
    Except Unit (List ChunkMetadata × Source) :=
  if REGION_HEADER_BYTES_LENGTH > sourceLen then
    .ok (List.replicate REGION_CHUNKS ChunkMetadata.default, source)
  else
    match readWords REGION_CHUNKS_METADATA_LENGTH source with
    | .error e => .error e
    | .ok (values, source) => .ok (metadataOfWords values, source)

/-- `Region::load`. -/
def Region.load (x z : Int) (source : Source) : Except Unit Region :=
  let sourceLen := source.len
  match readHeader source sourceLen with
  | .error e => .error e
  | .ok (chunksMetadata, source) =>
    let totalSectors :=
      if sourceLen > REGION_HEADER_BYTES_LENGTH then
        (sourceLen + (REGION_SECTOR_BYTES_LENGTH - 1)) / REGION_SECTOR_BYTES_LENGTH
      else 2
    .ok ⟨x, z, source, chunksMetadata, AnvilRegion.usedSectors totalSectors chunksMetadata⟩

/-- `ChunkReadError`. -/
inductive ChunkReadError where
  | chunkNotFound (regionChunkX regionChunkZ : Nat)
  | lengthExceedsMaximum (length maximumLength : Nat)
  | unsupportedCompressionScheme (compressionScheme : Nat)
  | ioError
  | tagDecodeError
deriving DecidableEq

/-- `ChunkWriteError`. -/
inductive ChunkWriteError where
  | lengthExceedsMaximum (length : Nat)
  | ioError
deriving DecidableEq

/-- The size `(length - 1) as usize` of the compressed buffer allocated by
`read_chunk`: a wrapping `u32` subtraction (release semantics).  The
argument is the `u32` read from the 4-byte length field, so it is below
2^32, and the wrapping subtraction underflows exactly when it is 0, giving
2^32 - 1. -/
def chunkBufferLen (length : Nat) : Nat :=
  if length = 0 then 4294967295 else length - 1

/-- `Region::read_chunk` up to (but not including) the decompression step:
returns the compression scheme byte and the raw compressed bytes. -/
def Region.readChunkRaw (r : Region) (regionChunkX regionChunkZ : Nat) :
    Except ChunkReadError (Nat × List Nat) :=
  let metadata := r.getMetadata regionChunkX regionChunkZ
  if metadata.isEmpty then
    .error (.chunkNotFound regionChunkX regionChunkZ)
  else
    let seekOffset := metadata.startSectorIndex * REGION_SECTOR_BYTES_LENGTH
    let maximumLength :=
      min (metadata.sectors * REGION_SECTOR_BYTES_LENGTH) CHUNK_MAXIMUM_BYTES_LENGTH
    let s := r.source.seekStart seekOffset
    match s.readU32 with
    | .error _ => .error .ioError
    | .ok (length, s) =>
      if length > maximumLength then
        .error (.lengthExceedsMaximum length maximumLength)
      else
        match s.readU8 with
        | .error _ => .error .ioError
        | .ok (compressionScheme, s) =>
          match s.readExact (chunkBufferLen length) with
          | .error _ => .error .ioError
          | .ok (compressedBuffer, _) => .ok (compressionScheme, compressedBuffer)

/-- `Region::read_chunk`: read the slab and hand the compressed bytes to the
collaborator decoder selected by the scheme byte (`1` gzip, `2` zlib). -/
def Region.readChunk (decodeGzip decodeZlib : List Nat → Except Unit (List Nat))
    (r : Region) (regionChunkX regionChunkZ : Nat) :
    Except ChunkReadError (List Nat) :=
  match r.readChunkRaw regionChunkX regionChunkZ with
  | .error e => .error e
  | .ok (compressionScheme, compressedBuffer) =>
    if compressionScheme = GZIP_COMPRESSION_TYPE then
      match decodeGzip compressedBuffer with
      | .ok tag => .ok tag
      | .error _ => .error .tagDecodeError
    else if compressionScheme = ZLIB_COMPRESSION_TYPE then
      match decodeZlib compressedBuffer with
      | .ok tag => .ok tag
      | .error _ => .error .tagDecodeError
    else
      .error (.unsupportedCompressionScheme compressionScheme)

/-- The `(chunk_length / REGION_SECTOR_BYTES_LENGTH as u32) as u8 + 1`
computation of `find_place`: a `u32` division, a truncating cast to `u8`,
then a wrapping `u8` increment (release semantics). -/
def sectorsRequired (chunkLength : Nat) : Nat :=
  (chunkLength / REGION_SECTOR_BYTES_LENGTH % 256 + 1) % 256

/-- The gap scan of `find_place`: walk the `remaining` sectors
`idx, idx+1, ...`, counting consecutive free sectors in the wrapping `u8`
counter `free` (reset on an occupied sector).  As soon as the counter
equals `required`, return `Sum.inl` of the run start `idx + 1 - free`; when
the scan ends, return `Sum.inr` of the final counter. -/
def gapScan (used : List Bool) (required : Nat) :
    (remaining idx free : Nat) → Sum Nat Nat
  | 0, _, free => Sum.inr free
  | remaining + 1, idx, free =>
    if used.getD idx false then
      gapScan used required remaining (idx + 1) 0
    else if (free + 1) % 256 = required then
      Sum.inl (idx + 1 - (free + 1) % 256)
    else
      gapScan used required remaining (idx + 1) ((free + 1) % 256)

/-- `Region::find_place`: the same-size fast path, otherwise release the
slot's old range, scan for a first-fit gap, and extend the source when the
scan fails.  `extend_sectors` is the wrapping `u8` difference
`sectors_required - sectors_free`; the number of bytes to append is the
wrapping `u16` product `REGION_SECTOR_BYTES_LENGTH * extend_sectors`. -/
def Region.findPlace (r : Region) (regionChunkX regionChunkZ : Nat) (chunkLength : Nat) :
    ChunkMetadata × Region :=
  let required := sectorsRequired chunkLength
  let metadata := r.getMetadata regionChunkX regionChunkZ
  if metadata.sectors = required then
    (metadata, r)
  else
    let used := setRange r.usedSectors metadata.startSectorIndex
      (metadata.startSectorIndex + metadata.sectors) false
    let sourceLen := r.source.len
    let totalSectors := sourceLen / REGION_SECTOR_BYTES_LENGTH
    match gapScan used required totalSectors 0 0 with
    -- the scan runs over sector indices `0 .. totalSectors`, so the fuel
    -- (first argument) and the start index coincide here
    | .inl putSectorIndex =>
      let used := setRange used putSectorIndex (putSectorIndex + required) true
      (ChunkMetadata.new putSectorIndex required 0,
        { r with usedSectors := used })
    | .inr sectorsFree =>
      let extendSectors := (required + 256 - sectorsFree) % 256
      let extendLenBytes := REGION_SECTOR_BYTES_LENGTH * extendSectors % 65536
      let source := r.source.extendLen (sourceLen + extendLenBytes)
      let used := used ++ List.replicate extendSectors true
      (ChunkMetadata.new (totalSectors - sectorsFree) required 0,
        { r with usedSectors := used, source := source })

/-- `Region::update_metadata`: store the entry in the table, write the
location word `(start_sector_index << 8) | sectors` (a `u32`) at byte offset
`4 * index`, seek forward by `REGION_SECTOR_BYTES_LENGTH - 4` bytes and
write the timestamp word. -/
def Region.updateMetadata (r : Region) (regionChunkX regionChunkZ : Nat)
    (metadata : ChunkMetadata) : Region :=
  let index := metadataIndex regionChunkX regionChunkZ
  let chunksMetadata := r.chunksMetadata.set index metadata
  let offset := (metadata.startSectorIndex <<< 8) % 4294967296 ||| metadata.sectors
  let source := (r.source.seekStart (index * 4)).writeU32 offset
  let source := (source.seekStart (source.pos + (REGION_SECTOR_BYTES_LENGTH - 4))).writeU32
    metadata.lastModifiedTimestamp
  { r with chunksMetadata := chunksMetadata, source := source }

/-- The padding length of `write_chunk`:
`REGION_SECTOR_BYTES_LENGTH - length as u16 % REGION_SECTOR_BYTES_LENGTH`,
computed in `u16` (the cast truncates `length` modulo 65536). -/
def paddingLen (length : Nat) : Nat :=
  REGION_SECTOR_BYTES_LENGTH - length % 65536 % REGION_SECTOR_BYTES_LENGTH

/-- `Region::write_chunk`.  `encodedTag` is the zlib byte stream the
collaborator `write_zlib_compound_tag` appends to the scratch buffer after
the scheme byte; `now` is the system clock reading (seconds since epoch)
taken by `update_last_modified_timestamp`, truncated to `u32`.  The pair
returned is the `Result` together with the mutated region (the `&mut self`
state persists across the error return). -/
def Region.writeChunk (r : Region) (regionChunkX regionChunkZ : Nat)
    (encodedTag : List Nat) (now : Nat) : Except ChunkWriteError Unit × Region :=
  let source :=
    if REGION_HEADER_BYTES_LENGTH > r.source.len then
      r.source.extendLen REGION_HEADER_BYTES_LENGTH
    else r.source
  let r := { r with source := source }
  let buffer := ZLIB_COMPRESSION_TYPE :: encodedTag
  let length := (buffer.length + 4) % 4294967296
  if length > CHUNK_MAXIMUM_BYTES_LENGTH then
    (.error (.lengthExceedsMaximum length), r)
  else
    let (metadata, r) := r.findPlace regionChunkX regionChunkZ length
    let seekOffset := metadata.startSectorIndex * REGION_SECTOR_BYTES_LENGTH
    let source := (r.source.seekStart seekOffset).writeU32 (buffer.length % 4294967296)
    let source := source.writeAll buffer
    let source :=
      if paddingLen length > 0 then
        source.writeAll (List.replicate (paddingLen length) 0)
      else source
    let metadata := { metadata with lastModifiedTimestamp := now % 4294967296 }
    let r := { r with source := source }
    (.ok (), r.updateMetadata regionChunkX regionChunkZ metadata)

/-- The empty byte source (a freshly created region file / empty buffer). -/
def emptySource : Source :=
  ⟨0, fun _ => 0, 0⟩

/-- The region obtained by loading an empty source (see `load_empty`). -/
def freshRegion : Region :=
  ⟨1, 1, emptySource, List.replicate REGION_CHUNKS ChunkMetadata.default, [true, true]⟩

/-- The byte sequence `write_chunk` emits at the slab offset on its success
path: the four big-endian bytes of `n` (the scratch-buffer length), the
scratch buffer (scheme byte followed by the encoded payload), and `pad`
zero padding bytes, written starting at sector `st`.  `writeChunk_success`
proves that the success path of `Region.writeChunk` produces exactly this
source. -/
def slabWrite (s : Source) (st n : Nat) (enc : List Nat) (pad : Nat) : Source :=
  (((s.seekStart (st * REGION_SECTOR_BYTES_LENGTH)).writeU32 n).writeAll
    (ZLIB_COMPRESSION_TYPE :: enc)).writeAll (List.replicate pad 0)

/-- An 8192-byte all-zero source with the cursor at the end: the result of
extending the empty source to header length (see `extendLen_emptySource`). -/
def src8192 : Source :=
  ⟨8192, fun _ => 0, 8192⟩

/-- `freshRegion` after `write_chunk`'s initial extension of the source to
header length (see `writeChunk_fresh_ext`). -/
def freshRegionExt : Region :=
  ⟨1, 1, src8192, List.replicate REGION_CHUNKS ChunkMetadata.default, [true, true]⟩

/-- Scenario used by several theorems: starting from the region loaded from
an empty source, write a small (one-sector) chunk to slot `(15, 15)`. -/
def scenarioW1 : Except ChunkWriteError Unit × Region :=
  freshRegion.writeChunk 15 15 [5] 0

/-- Scenario step 2: rewrite slot `(15, 15)` with a two-sector chunk
(4091 encoded bytes, slab length 4096). -/
def scenarioW2 : Except ChunkWriteError Unit × Region :=
  scenarioW1.2.writeChunk 15 15 (List.replicate 4091 7) 0

/-- Scenario step 3: write a small chunk to the distinct slot `(1, 1)`. -/
def scenarioW3 : Except ChunkWriteError Unit × Region :=
  scenarioW2.2.writeChunk 1 1 [9] 0

/-- A region holding a present slot at `(0, 0)` (start sector 2, one
sector) whose stored slab is all zeros, so the 4-byte length field of the
slab decodes to 0: the corrupt input of claim C8. -/
def corruptRegion : Region :=
  ⟨0, 0, ⟨12288, fun _ => 0, 0⟩,
    (List.replicate REGION_CHUNKS ChunkMetadata.default).set 0 ⟨2, 1, 0⟩,
    [true, true, true]⟩

/-! ## Basic lemmas about the byte-level helpers -/

theorem natToBe4_length (n : Nat) : (natToBe4 n).length = 4 := rfl

theorem beToNat_natToBe4 (n : Nat) : beToNat (natToBe4 n) = n % 4294967296 := by
  simp only [beToNat, natToBe4, List.foldl]
  omega

theorem natToBe4_mod (n : Nat) : natToBe4 (n % 4294967296) = natToBe4 n := by
  simp only [natToBe4, List.cons.injEq, and_true]
  refine ⟨?_, ?_, ?_, ?_⟩ <;> omega

theorem paddingLen_pos (length : Nat) : 0 < paddingLen length := by
  simp only [paddingLen, REGION_SECTOR_BYTES_LENGTH]
  omega

theorem paddingLen_eq (length : Nat) : paddingLen length = 4096 - length % 4096 := by
  simp only [paddingLen, REGION_SECTOR_BYTES_LENGTH]
  omega

theorem getD_set_self {α : Type} (l : List α) (i : Nat) (a d : α) (h : i < l.length) :
    (l.set i a).getD i d = a := by
  simp [List.getD_eq_getElem?_getD, List.getElem?_set_self h]

theorem getD_set_ne {α : Type} (l : List α) {i j : Nat} (a d : α) (h : i ≠ j) :
    (l.set i a).getD j d = l.getD j d := by
  simp [List.getD_eq_getElem?_getD, List.getElem?_set_ne h]

theorem getD_replicate_self {α : Type} (n j : Nat) (a : α) :
    (List.replicate n a).getD j a = a := by
  simp only [List.getD_eq_getElem?_getD, List.getElem?_replicate]
  split <;> rfl

/-! ## Basic lemmas about `Source` operations -/

@[simp] theorem seekStart_size (s : Source) (n : Nat) : (s.seekStart n).size = s.size := rfl

@[simp] theorem seekStart_byteAt (s : Source) (n : Nat) :
    (s.seekStart n).byteAt = s.byteAt := rfl

@[simp] theorem seekStart_pos (s : Source) (n : Nat) : (s.seekStart n).pos = n := rfl

@[simp] theorem writeAll_size (s : Source) (b : List Nat) :
    (s.writeAll b).size = max s.size (s.pos + b.length) := rfl

@[simp] theorem writeAll_pos (s : Source) (b : List Nat) :
    (s.writeAll b).pos = s.pos + b.length := rfl

theorem writeAll_byteAt (s : Source) (b : List Nat) (i : Nat) :
    (s.writeAll b).byteAt i =
      if s.pos ≤ i ∧ i < s.pos + b.length then b.getD (i - s.pos) 0
      else if i < s.size then s.byteAt i
      else 0 := rfl

@[simp] theorem writeU32_size (s : Source) (n : Nat) :
    (s.writeU32 n).size = max s.size (s.pos + 4) := rfl

@[simp] theorem writeU32_pos (s : Source) (n : Nat) : (s.writeU32 n).pos = s.pos + 4 := rfl

theorem writeU32_byteAt (s : Source) (n : Nat) (i : Nat) :
    (s.writeU32 n).byteAt i =
      if s.pos ≤ i ∧ i < s.pos + 4 then (natToBe4 n).getD (i - s.pos) 0
      else if i < s.size then s.byteAt i
      else 0 := rfl

theorem extendLen_size (s : Source) (n : Nat) : (s.extendLen n).size = max s.size n := by
  simp only [Source.extendLen]
  by_cases hg : n > s.size
  · rw [if_pos hg]
    split <;> simp <;> omega
  · rw [if_neg hg]
    split <;> simp <;> omega

theorem extendLen_byteAt (s : Source) (n i : Nat) :
    (s.extendLen n).byteAt i =
      if s.size < n then (if i < s.size then s.byteAt i else 0) else s.byteAt i := by
  simp only [Source.extendLen]
  by_cases hg : n > s.size
  · rw [if_pos hg, if_pos hg]
    have core :
        (Source.writeAll ⟨s.size, s.byteAt, s.size⟩ (List.replicate (n - s.size) 0)).byteAt i
          = if i < s.size then s.byteAt i else 0 := by
      rw [writeAll_byteAt]
      simp only [List.length_replicate]
      by_cases h1 : s.size ≤ i ∧ i < s.size + (n - s.size)
      · rw [if_pos h1, getD_replicate_self, if_neg (by omega)]
      · rw [if_neg h1]
    split
    · simpa using core
    · simpa using core
  · rw [if_neg hg, if_neg (by omega : ¬ s.size < n)]
    split <;> rfl

theorem extendLen_pos (s : Source) (n : Nat) :
    (s.extendLen n).pos = if s.pos = s.size ∧ s.size < n then n else s.pos := by
  simp only [Source.extendLen]
  by_cases hg : n > s.size
  · rw [if_pos hg]
    by_cases hp : s.pos ≠ s.size
    · rw [if_pos hp, if_neg (by omega)]
      rfl
    · rw [if_neg hp, if_pos (by omega)]
      simp
      omega
  · rw [if_neg hg, if_neg (by omega : ¬ (s.pos = s.size ∧ s.size < n))]
    split
    · rfl
    · simp only [ne_eq, not_not] at *
      omega

theorem extract_eq_of {s : Source} {q n : Nat} {L : List Nat} (hL : L.length = n)
    (h : ∀ j, j < n → s.byteAt (q + j) = L.getD j 0) : s.extract q n = L := by
  apply List.ext_getElem
  · simp [Source.extract, hL]
  · intro j h1 h2
    simp only [Source.extract, List.length_map, List.length_range] at h1
    simp only [Source.extract, List.getElem_map, List.getElem_range]
    rw [h j h1]
    rw [List.getD_eq_getElem?_getD, List.getElem?_eq_getElem h2]
    rfl

theorem extract_congr {s s' : Source} {q n : Nat}
    (h : ∀ j, j < n → s.byteAt (q + j) = s'.byteAt (q + j)) :
    s.extract q n = s'.extract q n := by
  simp only [Source.extract]
  apply List.map_congr_left
  intro a ha
  exact h a (List.mem_range.mp ha)

theorem extract_one (s : Source) (q : Nat) : s.extract q 1 = [s.byteAt q] := by
  simp [Source.extract, List.range_succ]

@[simp] theorem seekStart_extract (s : Source) (k q n : Nat) :
    (s.seekStart k).extract q n = s.extract q n := rfl

/-! ## Numeric values of the constants -/

theorem REGION_CHUNKS_eq : REGION_CHUNKS = 1024 := rfl

theorem REGION_HEADER_BYTES_LENGTH_eq : REGION_HEADER_BYTES_LENGTH = 8192 := rfl

theorem REGION_SECTOR_BYTES_LENGTH_eq : REGION_SECTOR_BYTES_LENGTH = 4096 := rfl

theorem CHUNK_MAXIMUM_BYTES_LENGTH_eq : CHUNK_MAXIMUM_BYTES_LENGTH = 1048576 := rfl

theorem chunkBufferLen_eq {n : Nat} (h1 : 1 ≤ n) (h2 : n < 4294967296) :
    chunkBufferLen n = n - 1 := by
  simp only [chunkBufferLen]
  rw [if_neg (by omega)]

/-! ## The bytes produced by the slab write of `write_chunk` -/

theorem slabWrite_size (s : Source) (st n : Nat) (enc : List Nat) (pad : Nat) :
    (slabWrite s st n enc pad).size = max s.size (st * 4096 + 5 + enc.length + pad) := by
  simp only [slabWrite, Source.writeU32, REGION_SECTOR_BYTES_LENGTH_eq, writeAll_size,
    writeAll_pos, seekStart_size, seekStart_pos, natToBe4_length, List.length_cons,
    List.length_replicate]
  omega

theorem slabWrite_byteAt_low (s : Source) (st n : Nat) (enc : List Nat) (pad : Nat)
    {i : Nat} (hi : i < st * 4096) :
    (slabWrite s st n enc pad).byteAt i = if i < s.size then s.byteAt i else 0 := by
  simp only [slabWrite, Source.writeU32, REGION_SECTOR_BYTES_LENGTH_eq]
  rw [writeAll_byteAt]
  simp only [writeAll_pos, writeAll_size, seekStart_pos, seekStart_size, natToBe4_length,
    List.length_cons, List.length_replicate]
  rw [if_neg (by omega), if_pos (by omega)]
  rw [writeAll_byteAt]
  simp only [writeAll_pos, writeAll_size, seekStart_pos, seekStart_size, natToBe4_length]
  rw [if_neg (by omega), if_pos (by omega)]
  rw [writeAll_byteAt]
  simp only [seekStart_pos, seekStart_size, seekStart_byteAt, natToBe4_length]
  rw [if_neg (by omega)]

theorem slabWrite_byteAt_len (s : Source) (st n : Nat) (enc : List Nat) (pad : Nat)
    {j : Nat} (hj : j < 4) :
    (slabWrite s st n enc pad).byteAt (st * 4096 + j) = (natToBe4 n).getD j 0 := by
  simp only [slabWrite, Source.writeU32, REGION_SECTOR_BYTES_LENGTH_eq]
  rw [writeAll_byteAt]
  simp only [writeAll_pos, writeAll_size, seekStart_pos, seekStart_size, natToBe4_length,
    List.length_cons, List.length_replicate]
  rw [if_neg (by omega), if_pos (by omega)]
  rw [writeAll_byteAt]
  simp only [writeAll_pos, writeAll_size, seekStart_pos, seekStart_size, natToBe4_length]
  rw [if_neg (by omega), if_pos (by omega)]
  rw [writeAll_byteAt]
  simp only [seekStart_pos, seekStart_size, seekStart_byteAt, natToBe4_length]
  rw [if_pos (by omega)]
  congr 1
  omega

theorem slabWrite_byteAt_buf (s : Source) (st n : Nat) (enc : List Nat) (pad : Nat)
    {j : Nat} (hj : j < 1 + enc.length) :
    (slabWrite s st n enc pad).byteAt (st * 4096 + 4 + j) =
      (ZLIB_COMPRESSION_TYPE :: enc).getD j 0 := by
  simp only [slabWrite, Source.writeU32, REGION_SECTOR_BYTES_LENGTH_eq]
  rw [writeAll_byteAt]
  simp only [writeAll_pos, writeAll_size, seekStart_pos, seekStart_size, natToBe4_length,
    List.length_cons, List.length_replicate]
  rw [if_neg (by omega), if_pos (by omega)]
  rw [writeAll_byteAt]
  simp only [writeAll_pos, writeAll_size, seekStart_pos, seekStart_size, natToBe4_length,
    List.length_cons]
  rw [if_pos (by omega)]
  congr 1
  omega

theorem slabWrite_extract_len (s : Source) (st n : Nat) (enc : List Nat) (pad : Nat) :
    (slabWrite s st n enc pad).extract (st * 4096) 4 = natToBe4 n :=
  extract_eq_of (natToBe4_length n) fun _ hj => slabWrite_byteAt_len s st n enc pad hj

theorem slabWrite_byteAt_scheme (s : Source) (st n : Nat) (enc : List Nat) (pad : Nat) :
    (slabWrite s st n enc pad).byteAt (st * 4096 + 4) = ZLIB_COMPRESSION_TYPE := by
  have h := slabWrite_byteAt_buf s st n enc pad (j := 0) (by omega)
  simpa using h

theorem slabWrite_extract_payload (s : Source) (st n : Nat) (enc : List Nat) (pad : Nat) :
    (slabWrite s st n enc pad).extract (st * 4096 + 5) enc.length = enc := by
  apply extract_eq_of rfl
  intro j hj
  have h := slabWrite_byteAt_buf s st n enc pad (j := j + 1) (by omega)
  have harith : st * 4096 + 4 + (j + 1) = st * 4096 + 5 + j := by omega
  rw [harith] at h
  rw [h]
  simp [List.getD_eq_getElem?_getD]

/-! ## The byte effect of `update_metadata` -/

@[simp] theorem updateMetadata_chunksMetadata (r : Region) (x z : Nat) (m : ChunkMetadata) :
    (r.updateMetadata x z m).chunksMetadata =
      r.chunksMetadata.set (metadataIndex x z) m := rfl

@[simp] theorem updateMetadata_usedSectors (r : Region) (x z : Nat) (m : ChunkMetadata) :
    (r.updateMetadata x z m).usedSectors = r.usedSectors := rfl

@[simp] theorem updateMetadata_x (r : Region) (x z : Nat) (m : ChunkMetadata) :
    (r.updateMetadata x z m).x = r.x := rfl

@[simp] theorem updateMetadata_z (r : Region) (x z : Nat) (m : ChunkMetadata) :
    (r.updateMetadata x z m).z = r.z := rfl

theorem updateMetadata_source_size (r : Region) (x z : Nat) (m : ChunkMetadata) :
    (r.updateMetadata x z m).source.size =
      max r.source.size (metadataIndex x z * 4 + 4100) := by
  simp only [Region.updateMetadata, Source.writeU32, REGION_SECTOR_BYTES_LENGTH_eq,
    writeAll_size, writeAll_pos, seekStart_size, seekStart_pos, natToBe4_length]
  omega

theorem updateMetadata_byteAt_high (r : Region) (x z : Nat) (m : ChunkMetadata)
    {i : Nat} (hi : metadataIndex x z * 4 + 4100 ≤ i) :
    (r.updateMetadata x z m).source.byteAt i =
      if i < r.source.size then r.source.byteAt i else 0 := by
  simp only [Region.updateMetadata, Source.writeU32]
  rw [writeAll_byteAt]
  simp only [writeAll_pos, writeAll_size, seekStart_pos, seekStart_size, seekStart_byteAt,
    REGION_SECTOR_BYTES_LENGTH_eq, natToBe4_length]
  rw [if_neg (by omega)]
  by_cases hlt : i < r.source.size
  · rw [if_pos (by omega)]
    rw [writeAll_byteAt]
    simp only [seekStart_pos, seekStart_size, seekStart_byteAt, natToBe4_length]
    rw [if_neg (by omega), if_pos hlt]
  · rw [if_neg hlt]
    split
    · rw [writeAll_byteAt]
      simp only [seekStart_pos, seekStart_size, seekStart_byteAt, natToBe4_length]
      rw [if_neg (by omega), if_neg hlt]
    · rfl

/-! ## The success path of `read_chunk` -/

theorem readChunkRaw_spec (r : Region) (xr zr st ct t n sch : Nat)
    (hm : r.getMetadata xr zr = ⟨st, ct, t⟩) (hct : ct ≠ 0)
    (h4 : r.source.extract (st * 4096) 4 = natToBe4 n)
    (hn : n < 4294967296) (hn1 : 1 ≤ n)
    (hmax : n ≤ min (ct * 4096) 1048576)
    (hsch : r.source.byteAt (st * 4096 + 4) = sch)
    (hsize : st * 4096 + 4 + n ≤ r.source.size) :
    r.readChunkRaw xr zr = .ok (sch, r.source.extract (st * 4096 + 5) (n - 1)) := by
  have hne : (ChunkMetadata.mk st ct t).isEmpty = false := by
    simp [ChunkMetadata.isEmpty, hct]
  have hr32 : (r.source.seekStart (st * 4096)).readU32 =
      .ok (n, ⟨r.source.size, r.source.byteAt, st * 4096 + 4⟩) := by
    simp only [Source.readU32, Source.readExact, seekStart_pos, seekStart_size,
      seekStart_byteAt, seekStart_extract]
    rw [if_pos (by omega)]
    rw [h4]
    simp only [beToNat_natToBe4, Nat.mod_eq_of_lt hn]
  have hr8 : (Source.mk r.source.size r.source.byteAt (st * 4096 + 4)).readU8 =
      .ok (sch, ⟨r.source.size, r.source.byteAt, st * 4096 + 5⟩) := by
    simp only [Source.readU8, Source.readExact]
    rw [if_pos (by omega)]
    rw [extract_one]
    simp only [List.getD_cons_zero]
    rw [hsch]
  have hrx : (Source.mk r.source.size r.source.byteAt (st * 4096 + 5)).readExact
      (chunkBufferLen n) =
      .ok (r.source.extract (st * 4096 + 5) (n - 1),
        ⟨r.source.size, r.source.byteAt, st * 4096 + 5 + (n - 1)⟩) := by
    rw [chunkBufferLen_eq hn1 hn]
    simp only [Source.readExact]
    rw [if_pos (by omega)]
    rfl
  simp only [Region.readChunkRaw, hm, hne, Bool.false_eq_true, if_false,
    REGION_SECTOR_BYTES_LENGTH_eq, CHUNK_MAXIMUM_BYTES_LENGTH_eq]
  rw [hr32]
  simp only [gt_iff_lt]
  rw [if_neg (by omega : ¬ min (ct * 4096) 1048576 < n)]
  rw [hr8]
  simp only [gt_iff_lt]
  rw [hrx]

/-! ## The success path of `write_chunk` -/

theorem writeChunk_success (r : Region) (x z : Nat) (enc : List Nat) (now st ct : Nat)
    (s₀ : Source) (r₁ : Region)
    (hsrc : (if REGION_HEADER_BYTES_LENGTH > r.source.len then
        r.source.extendLen REGION_HEADER_BYTES_LENGTH else r.source) = s₀)
    (hL : enc.length + 5 ≤ 1048576)
    (hfp : Region.findPlace ⟨r.x, r.z, s₀, r.chunksMetadata, r.usedSectors⟩ x z
        (enc.length + 5) = (⟨st, ct, 0⟩, r₁)) :
    r.writeChunk x z enc now =
      (.ok (),
        Region.updateMetadata
          { r₁ with
              source := slabWrite r₁.source st (enc.length + 1) enc (paddingLen (enc.length + 5)) }
          x z ⟨st, ct, now % 4294967296⟩) := by
  have h5 : enc.length + 1 + 4 = enc.length + 5 := by omega
  simp only [Region.writeChunk, List.length_cons, h5]
  rw [hsrc]
  rw [Nat.mod_eq_of_lt (by omega : enc.length + 5 < 4294967296)]
  rw [if_neg (by rw [CHUNK_MAXIMUM_BYTES_LENGTH_eq]; omega :
    ¬ enc.length + 5 > CHUNK_MAXIMUM_BYTES_LENGTH)]
  rw [hfp]
  simp only [gt_iff_lt]
  rw [Nat.mod_eq_of_lt (by omega : enc.length + 1 < 4294967296)]
  rw [if_pos (paddingLen_pos _)]
  rfl

/-! ## Loading and first extension of an empty source -/

theorem writeAll_zeros_of_empty (k : Nat) :
    (Source.mk 0 (fun _ => 0) 0).writeAll (List.replicate k 0) = ⟨k, fun _ => 0, k⟩ := by
  simp only [Source.writeAll, List.length_replicate]
  congr 1
  · omega
  · funext i
    by_cases h : 0 ≤ i ∧ i < 0 + k
    · rw [if_pos h, getD_replicate_self]
    · rw [if_neg h, if_neg (by omega)]
  · omega

theorem extendLen_emptySource : emptySource.extendLen 8192 = src8192 := by
  simp only [Source.extendLen, emptySource]
  rw [if_neg (show ¬ ((0 : Nat) ≠ 0) by simp)]
  rw [if_pos (show (8192 : Nat) > 0 by norm_num)]
  rw [show (8192 - 0 : Nat) = 8192 from rfl]
  exact writeAll_zeros_of_empty 8192

theorem findPlace_freshExt (x z L req : Nat) (hreq : sectorsRequired L = req)
    (h1 : 1 ≤ req) :
    freshRegionExt.findPlace x z L =
      (⟨2, req, 0⟩,
        ⟨1, 1, src8192.extendLen (8192 + 4096 * req % 65536),
          List.replicate 1024 ChunkMetadata.default,
          [true, true] ++ List.replicate req true⟩) := by
  have h2 : req ≤ 255 := by
    rw [← hreq]
    simp only [sectorsRequired]
    omega
  have hmeta : freshRegionExt.getMetadata x z = ChunkMetadata.default := by
    simp only [Region.getMetadata, freshRegionExt, REGION_CHUNKS_eq]
    exact getD_replicate_self _ _ _
  simp only [Region.findPlace, hreq, hmeta, REGION_SECTOR_BYTES_LENGTH_eq, Source.len]
  rw [if_neg (by simp only [ChunkMetadata.default]; omega)]
  have hscan : gapScan (setRange freshRegionExt.usedSectors
      ChunkMetadata.default.startSectorIndex
      (ChunkMetadata.default.startSectorIndex + ChunkMetadata.default.sectors) false)
      req (freshRegionExt.source.size / 4096) 0 0 = .inr 0 := rfl
  rw [hscan]
  have hes : (req + 256 - 0) % 256 = req := by omega
  simp only [hes]
  rfl

/-! ## Bytes of the region after a completed `write_chunk` (slab write at
sector `st ≥ 2` followed by the header update) -/

theorem postWrite_size (rpre : Region) (xw zw st : Nat) (m : ChunkMetadata)
    (enc : List Nat) (pad : Nat) (hst : 2 ≤ st) (hidx : metadataIndex xw zw < 1024) :
    (Region.updateMetadata
        { rpre with source := slabWrite rpre.source st (enc.length + 1) enc pad }
        xw zw m).source.size
      = max rpre.source.size (st * 4096 + 5 + enc.length + pad) := by
  rw [updateMetadata_source_size]
  show max ((slabWrite rpre.source st (enc.length + 1) enc pad).size) _ = _
  rw [slabWrite_size]
  omega

theorem postWrite_extract_len (rpre : Region) (xw zw st : Nat) (m : ChunkMetadata)
    (enc : List Nat) (pad : Nat) (hst : 2 ≤ st) (hidx : metadataIndex xw zw < 1024) :
    (Region.updateMetadata
        { rpre with source := slabWrite rpre.source st (enc.length + 1) enc pad }
        xw zw m).source.extract (st * 4096) 4 = natToBe4 (enc.length + 1) := by
  apply extract_eq_of (natToBe4_length _)
  intro j hj
  rw [updateMetadata_byteAt_high _ _ _ _ (by omega)]
  show (if st * 4096 + j < (slabWrite rpre.source st (enc.length + 1) enc pad).size
    then (slabWrite rpre.source st (enc.length + 1) enc pad).byteAt (st * 4096 + j) else 0) = _
  rw [slabWrite_size, if_pos (by omega)]
  exact slabWrite_byteAt_len rpre.source st (enc.length + 1) enc pad hj

theorem postWrite_byteAt_scheme (rpre : Region) (xw zw st : Nat) (m : ChunkMetadata)
    (enc : List Nat) (pad : Nat) (hst : 2 ≤ st) (hidx : metadataIndex xw zw < 1024) :
    (Region.updateMetadata
        { rpre with source := slabWrite rpre.source st (enc.length + 1) enc pad }
        xw zw m).source.byteAt (st * 4096 + 4) = ZLIB_COMPRESSION_TYPE := by
  rw [updateMetadata_byteAt_high _ _ _ _ (by omega)]
  show (if st * 4096 + 4 < (slabWrite rpre.source st (enc.length + 1) enc pad).size
    then (slabWrite rpre.source st (enc.length + 1) enc pad).byteAt (st * 4096 + 4) else 0) = _
  rw [slabWrite_size, if_pos (by omega)]
  exact slabWrite_byteAt_scheme rpre.source st (enc.length + 1) enc pad

theorem postWrite_extract_payload (rpre : Region) (xw zw st : Nat) (m : ChunkMetadata)
    (enc : List Nat) (pad : Nat) (hst : 2 ≤ st) (hidx : metadataIndex xw zw < 1024) :
    (Region.updateMetadata
        { rpre with source := slabWrite rpre.source st (enc.length + 1) enc pad }
        xw zw m).source.extract (st * 4096 + 5) enc.length = enc := by
  have hall : ∀ j, j < enc.length →
      (Region.updateMetadata
        { rpre with source := slabWrite rpre.source st (enc.length + 1) enc pad }
        xw zw m).source.byteAt (st * 4096 + 5 + j)
      = (slabWrite rpre.source st (enc.length + 1) enc pad).byteAt (st * 4096 + 5 + j) := by
    intro j hj
    rw [updateMetadata_byteAt_high _ _ _ _ (by omega)]
    show (if st * 4096 + 5 + j < (slabWrite rpre.source st (enc.length + 1) enc pad).size
      then (slabWrite rpre.source st (enc.length + 1) enc pad).byteAt (st * 4096 + 5 + j)
      else 0) = _
    rw [slabWrite_size, if_pos (by omega)]
  calc (Region.updateMetadata
        { rpre with source := slabWrite rpre.source st (enc.length + 1) enc pad }
        xw zw m).source.extract (st * 4096 + 5) enc.length
      = (slabWrite rpre.source st (enc.length + 1) enc pad).extract (st * 4096 + 5) enc.length :=
        extract_congr hall
    _ = enc := slabWrite_extract_payload rpre.source st (enc.length + 1) enc pad

/-! ## First-write helpers on the fresh region -/

theorem fresh_hsrc :
    (if REGION_HEADER_BYTES_LENGTH > freshRegion.source.len then
      freshRegion.source.extendLen REGION_HEADER_BYTES_LENGTH else freshRegion.source)
    = src8192 := by
  rw [if_pos (by decide : REGION_HEADER_BYTES_LENGTH > freshRegion.source.len)]
  exact extendLen_emptySource

theorem findPlace_freshExt_fast (x z L : Nat) (hL : sectorsRequired L = 0) :
    freshRegionExt.findPlace x z L = (⟨0, 0, 0⟩, freshRegionExt) := by
  have hmeta : freshRegionExt.getMetadata x z = ChunkMetadata.default := by
    simp only [Region.getMetadata, freshRegionExt, REGION_CHUNKS_eq]
    exact getD_replicate_self _ _ _
  simp only [Region.findPlace, hL, hmeta]
  rw [if_pos (show ChunkMetadata.default.sectors = 0 from rfl)]
  rfl

/-! ## The bitmap derived from an all-absent metadata table -/

theorem usedSectors_foldl_empty (l : List ChunkMetadata) (acc : List Bool)
    (h : ∀ m ∈ l, m.isEmpty = true) :
    l.foldl
      (fun acc metadata =>
        if metadata.isEmpty then acc
        else setRange acc metadata.startSectorIndex
          (metadata.startSectorIndex + metadata.sectors) true)
      acc = acc := by
  induction l generalizing acc with
  | nil => rfl
  | cons hd tl ih =>
    simp only [List.foldl]
    rw [if_pos (h hd (List.mem_cons_self hd tl))]
    exact ih acc fun m hm => h m (List.mem_cons_of_mem hd hm)

theorem usedSectors_all_empty :
    usedSectors 2 (List.replicate REGION_CHUNKS ChunkMetadata.default) = [true, true] := by
  simp only [usedSectors]
  rw [usedSectors_foldl_empty]
  · rfl
  · intro m hm
    rw [List.eq_of_mem_replicate hm]
    rfl

/-! ## Claim theorems -/

/-- C6: loading any source shorter than 8192 bytes (including a 0-byte
source) succeeds and yields the region whose 1024 metadata entries are all
absent (start sector 0, sector count 0, last-modified 0) and whose sector
bitmap is exactly `[true, true]`. -/
theorem c6_load_short_source (x z : Int) (s : Source) (h : s.size < 8192) :
    Region.load x z s =
      .ok ⟨x, z, s, List.replicate REGION_CHUNKS ChunkMetadata.default, [true, true]⟩ := by
  have hh : readHeader s s.size =
      .ok (List.replicate REGION_CHUNKS ChunkMetadata.default, s) := by
    simp only [readHeader, REGION_HEADER_BYTES_LENGTH_eq]
    rw [if_pos (by omega)]
  simp only [Region.load, Source.len, REGION_HEADER_BYTES_LENGTH_eq]
  rw [hh]
  simp only [gt_iff_lt]
  rw [if_neg (by omega : ¬ 8192 < s.size)]
  rw [usedSectors_all_empty]

/-- Witness for C6: loading the empty source. -/
theorem c6_load_short_source_witness :
    emptySource.size < 8192 ∧
    Region.load 0 0 emptySource =
      .ok ⟨0, 0, emptySource, List.replicate REGION_CHUNKS ChunkMetadata.default,
        [true, true]⟩ :=
  ⟨by decide, c6_load_short_source 0 0 emptySource (by decide)⟩

/-- C5 counterexample: `extend_len` does not always restore the prior
cursor.  Extending the empty source (cursor 0, length 0) to length 1 grows
it by one zero byte but leaves the cursor at 1, not at the prior position
0: the saved position equals the old length, so the restoring seek is
skipped even though the appending write moved the cursor. -/
theorem c5_counterexample :
    (emptySource.extendLen 1).size = 1 ∧
    (emptySource.extendLen 1).byteAt 0 = 0 ∧
    emptySource.pos = 0 ∧
    (emptySource.extendLen 1).pos ≠ 0 := by
  refine ⟨?_, ?_, rfl, ?_⟩ <;> decide

/-- C5 (amended): `extend_len(new_len)` grows the source to at least
`new_len` by appending zero bytes (leaving it unchanged when `new_len` does
not exceed the current length), and on return the cursor equals the prior
cursor except when the prior cursor equals the old length and the source
grows, in which case the cursor is left at the new end. -/
theorem c5_extend_len_amended (s : Source) (n : Nat) :
    (s.extendLen n).size = max s.size n ∧
    (∀ i, i < s.size → (s.extendLen n).byteAt i = s.byteAt i) ∧
    (∀ i, s.size ≤ i → i < n → (s.extendLen n).byteAt i = 0) ∧
    (s.extendLen n).pos = if s.pos = s.size ∧ s.size < n then n else s.pos := by
  refine ⟨extendLen_size s n, ?_, ?_, extendLen_pos s n⟩
  · intro i hi
    rw [extendLen_byteAt]
    by_cases hc : s.size < n
    · rw [if_pos hc, if_pos hi]
    · rw [if_neg hc]
  · intro i h1 h2
    rw [extendLen_byteAt]
    rw [if_pos (by omega), if_neg (by omega)]

/-- Witness for C5 (amended): extending the empty source to length 2. -/
theorem c5_extend_len_amended_witness :
    (emptySource.extendLen 2).size = max emptySource.size 2 ∧
    (emptySource.extendLen 2).byteAt 0 = 0 ∧
    (emptySource.extendLen 2).pos =
      if emptySource.pos = emptySource.size ∧ emptySource.size < 2 then 2
      else emptySource.pos :=
  ⟨(c5_extend_len_amended emptySource 2).1,
    (c5_extend_len_amended emptySource 2).2.2.1 0 (by decide) (by decide),
    (c5_extend_len_amended emptySource 2).2.2.2⟩

/-- C4 counterexample: the padding byte count `write_chunk` computes for a
sector-aligned slab length is a full sector, not zero.  At slab length
`L = 4096` the code's padding length
(`REGION_SECTOR_BYTES_LENGTH - length as u16 % REGION_SECTOR_BYTES_LENGTH`)
is 4096, so 4096 zero padding bytes are written, while the claim asserts
that zero padding bytes are written when `L mod 4096 == 0`. -/
theorem c4_counterexample :
    (4096 : Nat) % 4096 = 0 ∧ paddingLen 4096 = 4096 ∧ paddingLen 4096 ≠ 0 := by
  refine ⟨?_, ?_, ?_⟩ <;> decide

/-- C4 (amended): on every successful `write_chunk` the padding written
after the slab is `REGION_SECTOR_BYTES_LENGTH - (L mod sector size)` zero
bytes — always positive, so the `padding_len > 0` guard always writes — and
in particular a full sector of 4096 zero bytes (not zero bytes) when
`L mod 4096 == 0`. -/
theorem c4_padding_amended (L : Nat) :
    paddingLen L = 4096 - L % 4096 ∧ 0 < paddingLen L ∧
    (L % 4096 = 0 → paddingLen L = 4096) := by
  refine ⟨paddingLen_eq L, paddingLen_pos L, ?_⟩
  intro h
  rw [paddingLen_eq L, h]

/-- Witness for C4 (amended), at the sector-aligned slab length 4096. -/
theorem c4_padding_amended_witness :
    (4096 : Nat) % 4096 = 0 ∧ paddingLen 4096 = 4096 :=
  ⟨by decide, (c4_padding_amended 4096).2.2 (by decide)⟩

/-- C9: the slab length `L = 1048576` passes `write_chunk`'s limit check
(`L > CHUNK_MAXIMUM_BYTES_LENGTH` is false), yet the required-sector
computation `(L / 4096) as u8 + 1` wraps to 1 instead of the intended
`⌊L / 4096⌋ + 1 = 257`; a write of such a chunk on a fresh region succeeds
and records a one-sector allocation in the metadata. -/
theorem c9_sectors_required_overflow :
    ¬ ((1048576 : Nat) > CHUNK_MAXIMUM_BYTES_LENGTH) ∧
    sectorsRequired 1048576 = 1 ∧
    1048576 / REGION_SECTOR_BYTES_LENGTH + 1 = 257 ∧
    sectorsRequired 1048576 ≠ 1048576 / REGION_SECTOR_BYTES_LENGTH + 1 ∧
    (∀ enc : List Nat, enc.length = 1048571 →
      (freshRegion.writeChunk 0 0 enc 0).1 = .ok () ∧
      (freshRegion.writeChunk 0 0 enc 0).2.chunksMetadata.getD 0 ChunkMetadata.default
        = ⟨2, 1, 0⟩) := by
  refine ⟨by decide, by decide, by decide, by decide, ?_⟩
  intro enc henc
  have hfp : Region.findPlace
      ⟨freshRegion.x, freshRegion.z, src8192, freshRegion.chunksMetadata,
        freshRegion.usedSectors⟩ 0 0 (enc.length + 5)
      = (⟨2, 1, 0⟩, ⟨1, 1, src8192.extendLen (8192 + 4096 * 1 % 65536),
          List.replicate 1024 ChunkMetadata.default,
          [true, true] ++ List.replicate 1 true⟩) := by
    have : sectorsRequired (enc.length + 5) = 1 := by
      rw [henc]
      decide
    exact findPlace_freshExt 0 0 (enc.length + 5) 1 this (by omega)
  have hw := writeChunk_success freshRegion 0 0 enc 0 2 1 src8192 _ fresh_hsrc
    (by omega) hfp
  rw [hw]
  refine ⟨rfl, ?_⟩
  rw [updateMetadata_chunksMetadata]
  show ((List.replicate 1024 ChunkMetadata.default).set 0 ⟨2, 1, 0 % 4294967296⟩).getD 0
      ChunkMetadata.default = _
  rw [getD_set_self]
  rw [List.length_replicate]
  omega

/-- Witness for C9: the payload of 1048571 encoded bytes. -/
theorem c9_sectors_required_overflow_witness :
    (List.replicate 1048571 (0 : Nat)).length = 1048571 ∧
    (freshRegion.writeChunk 0 0 (List.replicate 1048571 0) 0).1 = .ok () :=
  ⟨List.length_replicate 1048571 0,
    (c9_sectors_required_overflow.2.2.2.2 (List.replicate 1048571 0)
      (List.length_replicate 1048571 0)).1⟩

/-- C8: a present slot whose stored 4-byte length field is 0 passes the
length-versus-maximum check (`0 > maximum` is false), and the unchecked
wrapping subtraction `(length - 1) as usize` underflows to `2^32 - 1`, so
`read_chunk` attempts to read 4294967295 bytes and fails with the I/O
(unexpected end of file) error rather than any corruption-detecting error. -/
theorem c8_zero_length_underflow :
    chunkBufferLen 0 = 4294967295 ∧
    ¬ ((0 : Nat) > min (1 * REGION_SECTOR_BYTES_LENGTH) CHUNK_MAXIMUM_BYTES_LENGTH) ∧
    corruptRegion.readChunkRaw 0 0 = .error .ioError := by
  refine ⟨by decide, by decide, ?_⟩
  rfl

/-- C10: the out-of-range coordinates (33, 0) alias the in-bounds slot 33
of the distinct in-range coordinates (1, 1): with the debug assertions
compiled out, `metadata_index` returns the same index for both, and
`get_metadata` and `write_chunk` behave identically on them, silently
operating on slot (1, 1)'s data. -/
theorem c10_out_of_range_aliasing :
    metadataIndex 33 0 = 33 ∧ metadataIndex 1 1 = 33 ∧
    ((33, 0) : Nat × Nat) ≠ (1, 1) ∧ metadataIndex 33 0 < 1024 ∧
    (∀ r : Region, r.getMetadata 33 0 = r.getMetadata 1 1) ∧
    (∀ (r : Region) (enc : List Nat) (now : Nat),
      r.writeChunk 33 0 enc now = r.writeChunk 1 1 enc now) := by
  refine ⟨rfl, rfl, by decide, by decide, fun r => rfl, fun r enc now => rfl⟩

/-- C7: `write_chunk` returns `LengthExceedsMaximum` carrying the `u32`
slab length `L = (|encoded| + 5) mod 2^32` exactly when `L` exceeds
`CHUNK_MAXIMUM_BYTES_LENGTH` (1 MiB); when that error is returned the
in-memory metadata table and sector bitmap are unchanged, the source has
grown at most to the 8192-byte header length, and every byte at offset 8192
or beyond is unchanged. -/
theorem c7_write_length_error (r : Region) (x z : Nat) (enc : List Nat) (now : Nat) :
    (((r.writeChunk x z enc now).1 =
        .error (.lengthExceedsMaximum ((enc.length + 5) % 4294967296))) ↔
      ((enc.length + 5) % 4294967296 > 1048576)) ∧
    (((enc.length + 5) % 4294967296 > 1048576) →
      ((r.writeChunk x z enc now).2.chunksMetadata = r.chunksMetadata ∧
       (r.writeChunk x z enc now).2.usedSectors = r.usedSectors ∧
       (r.writeChunk x z enc now).2.source.size = max r.source.size 8192 ∧
       (∀ i, 8192 ≤ i → i < r.source.size →
         (r.writeChunk x z enc now).2.source.byteAt i = r.source.byteAt i))) := by
  have h5 : enc.length + 1 + 4 = enc.length + 5 := by omega
  by_cases hc : (enc.length + 5) % 4294967296 > 1048576
  · have hw : r.writeChunk x z enc now =
        (.error (.lengthExceedsMaximum ((enc.length + 5) % 4294967296)),
         { r with source := if REGION_HEADER_BYTES_LENGTH > r.source.len then
             r.source.extendLen REGION_HEADER_BYTES_LENGTH else r.source }) := by
      simp only [Region.writeChunk, List.length_cons, h5]
      rw [if_pos (by rw [CHUNK_MAXIMUM_BYTES_LENGTH_eq]; exact hc)]
    rw [hw]
    refine ⟨⟨fun _ => hc, fun _ => rfl⟩, fun _ => ⟨rfl, rfl, ?_, ?_⟩⟩
    · show (if REGION_HEADER_BYTES_LENGTH > r.source.len then
          r.source.extendLen REGION_HEADER_BYTES_LENGTH else r.source).size = _
      simp only [Source.len, REGION_HEADER_BYTES_LENGTH_eq]
      by_cases hb : 8192 > r.source.size
      · rw [if_pos hb, extendLen_size]
      · rw [if_neg hb]
        omega
    · intro i h1 h2
      show (if REGION_HEADER_BYTES_LENGTH > r.source.len then
          r.source.extendLen REGION_HEADER_BYTES_LENGTH else r.source).byteAt i = _
      simp only [Source.len, REGION_HEADER_BYTES_LENGTH_eq]
      by_cases hb : 8192 > r.source.size
      · rw [if_pos hb, extendLen_byteAt, if_pos (by omega), if_pos h2]
      · rw [if_neg hb]
  · have hfst : (r.writeChunk x z enc now).1 = .ok () := by
      simp only [Region.writeChunk, List.length_cons, h5]
      rw [if_neg (by rw [CHUNK_MAXIMUM_BYTES_LENGTH_eq]; exact hc)]
    refine ⟨⟨fun h => ?_, fun h => absurd h hc⟩, fun h => absurd h hc⟩
    rw [hfst] at h
    exact absurd h (by simp)

/-- Witness for C7: a payload of 1048572 encoded bytes (slab length
1048577) is rejected on the fresh region. -/
theorem c7_write_length_error_witness :
    ((List.replicate 1048572 (0 : Nat)).length + 5) % 4294967296 > 1048576 ∧
    (freshRegion.writeChunk 0 0 (List.replicate 1048572 0) 0).1 =
      .error (.lengthExceedsMaximum
        (((List.replicate 1048572 (0 : Nat)).length + 5) % 4294967296)) := by
  have hlen : ((List.replicate 1048572 (0 : Nat)).length + 5) % 4294967296 > 1048576 := by
    rw [List.length_replicate]
    norm_num
  exact ⟨hlen,
    (c7_write_length_error freshRegion 0 0 (List.replicate 1048572 0) 0).1.mpr hlen⟩

/-- Reading an absent slot fails with `ChunkNotFound`. -/
theorem readChunkRaw_notFound (r : Region) (xr zr st t : Nat)
    (hm : r.getMetadata xr zr = ⟨st, 0, t⟩) :
    r.readChunkRaw xr zr = .error (.chunkNotFound xr zr) := by
  simp only [Region.readChunkRaw, hm]
  rw [if_pos (show (ChunkMetadata.mk st 0 t).isEmpty = true from rfl)]

/-- `read_chunk` hands a zlib slab to the zlib decoder. -/
theorem readChunk_of_raw_zlib (decodeGzip decodeZlib : List Nat → Except Unit (List Nat))
    (r : Region) (xr zr : Nat) (buf tag : List Nat)
    (hraw : r.readChunkRaw xr zr = .ok (ZLIB_COMPRESSION_TYPE, buf))
    (hdz : decodeZlib buf = .ok tag) :
    Region.readChunk decodeGzip decodeZlib r xr zr = .ok tag := by
  simp only [Region.readChunk]
  rw [hraw]
  simp only [gt_iff_lt]
  rw [if_neg (by decide : ¬ ZLIB_COMPRESSION_TYPE = GZIP_COMPRESSION_TYPE)]
  rw [if_pos trivial]
  rw [hdz]

/-- `read_chunk` propagates errors of the raw read path. -/
theorem readChunk_of_raw_error (decodeGzip decodeZlib : List Nat → Except Unit (List Nat))
    (r : Region) (xr zr : Nat) (e : ChunkReadError)
    (hraw : r.readChunkRaw xr zr = .error e) :
    Region.readChunk decodeGzip decodeZlib r xr zr = .error e := by
  simp only [Region.readChunk]
  rw [hraw]

/-- C3 counterexample: with the identity encoder and the always-succeeding
decoder (a left inverse), the payload of 1044475 bytes has a compressed
slab of 1044480 bytes — under 1 MiB — yet `write_chunk` followed by
`read_chunk` at (0, 0) on a region loaded from an empty source does not
yield the payload: the 8-bit required-sector count wraps to 0, the write
takes the same-size fast path against the absent slot, records a
zero-sector allocation, and returns success, after which the read fails
with `ChunkNotFound`. -/
theorem c3_counterexample :
    (∀ t : List Nat, (Except.ok t : Except Unit (List Nat)) = .ok t) ∧
    (List.replicate 1044475 (3 : Nat)).length + 5 < 1048576 ∧
    (freshRegion.writeChunk 0 0 (List.replicate 1044475 3) 0).1 = .ok () ∧
    Region.readChunk (fun _ => .error ()) (fun b => .ok b)
      (freshRegion.writeChunk 0 0 (List.replicate 1044475 3) 0).2 0 0
      = .error (.chunkNotFound 0 0) := by
  set enc : List Nat := List.replicate 1044475 3 with hencdef
  have hlen : enc.length = 1044475 := List.length_replicate 1044475 3
  have hreq : sectorsRequired (enc.length + 5) = 0 := by
    rw [hlen]
    decide
  have hfp : Region.findPlace
      ⟨freshRegion.x, freshRegion.z, src8192, freshRegion.chunksMetadata,
        freshRegion.usedSectors⟩ 0 0 (enc.length + 5) = (⟨0, 0, 0⟩, freshRegionExt) :=
    findPlace_freshExt_fast 0 0 (enc.length + 5) hreq
  have hw := writeChunk_success freshRegion 0 0 enc 0 0 0 src8192 freshRegionExt
    fresh_hsrc (by omega) hfp
  have hm : (Region.updateMetadata
      { freshRegionExt with
          source := slabWrite freshRegionExt.source 0 (enc.length + 1) enc
            (paddingLen (enc.length + 5)) }
      0 0 ⟨0, 0, 0 % 4294967296⟩).getMetadata 0 0 = ⟨0, 0, 0 % 4294967296⟩ := by
    simp only [Region.getMetadata, updateMetadata_chunksMetadata]
    show ((List.replicate 1024 ChunkMetadata.default).set (metadataIndex 0 0)
      ⟨0, 0, 0 % 4294967296⟩).getD (metadataIndex 0 0) ChunkMetadata.default = _
    rw [getD_set_self]
    rw [List.length_replicate]
    decide
  have hraw := readChunkRaw_notFound _ 0 0 0 (0 % 4294967296) hm
  refine ⟨fun t => rfl, by rw [hlen]; norm_num, ?_, ?_⟩
  · rw [hw]
  · rw [hw]
    exact readChunk_of_raw_error _ _ _ 0 0 _ hraw

/-- C3 (amended): for every payload whose compressed zlib slab is under
1044480 bytes (at most 254 full sectors plus slack, so the 8-bit
required-sector count does not wrap) and coordinates below 32, writing it
to a region loaded from an empty source succeeds and reading the same slot
back yields the payload, provided the zlib decoder is a left inverse of
the encoder. -/
theorem c3_roundtrip_amended (decodeGzip decodeZlib : List Nat → Except Unit (List Nat))
    (encodeZlib : List Nat → List Nat) (P : List Nat)
    (hinv : ∀ t, decodeZlib (encodeZlib t) = .ok t)
    (x z now : Nat) (hx : x < 32) (hz : z < 32)
    (hlen : (encodeZlib P).length + 5 ≤ 1044479) :
    (freshRegion.writeChunk x z (encodeZlib P) now).1 = .ok () ∧
    Region.readChunk decodeGzip decodeZlib
      (freshRegion.writeChunk x z (encodeZlib P) now).2 x z = .ok P := by
  set enc : List Nat := encodeZlib P with hencdef
  have hL : enc.length + 5 ≤ 1044479 := hlen
  have hreqval : sectorsRequired (enc.length + 5) = (enc.length + 5) / 4096 + 1 := by
    simp only [sectorsRequired, REGION_SECTOR_BYTES_LENGTH_eq]
    omega
  have hfp := findPlace_freshExt x z (enc.length + 5) ((enc.length + 5) / 4096 + 1)
    hreqval (by omega)
  have hw := writeChunk_success freshRegion x z enc now 2 ((enc.length + 5) / 4096 + 1)
    src8192 _ fresh_hsrc (by omega) hfp
  have hidx : metadataIndex x z < 1024 := by
    simp only [metadataIndex]
    omega
  have hm : (Region.updateMetadata
      { (⟨1, 1, src8192.extendLen (8192 + 4096 * ((enc.length + 5) / 4096 + 1) % 65536),
          List.replicate 1024 ChunkMetadata.default,
          [true, true] ++ List.replicate ((enc.length + 5) / 4096 + 1) true⟩ : Region) with
          source := slabWrite
            (⟨1, 1, src8192.extendLen (8192 + 4096 * ((enc.length + 5) / 4096 + 1) % 65536),
              List.replicate 1024 ChunkMetadata.default,
              [true, true] ++ List.replicate ((enc.length + 5) / 4096 + 1) true⟩ :
                Region).source
            2 (enc.length + 1) enc (paddingLen (enc.length + 5)) }
      x z ⟨2, (enc.length + 5) / 4096 + 1, now % 4294967296⟩).getMetadata x z
      = ⟨2, (enc.length + 5) / 4096 + 1, now % 4294967296⟩ := by
    simp only [Region.getMetadata, updateMetadata_chunksMetadata]
    show ((List.replicate 1024 ChunkMetadata.default).set (metadataIndex x z)
      ⟨2, (enc.length + 5) / 4096 + 1, now % 4294967296⟩).getD (metadataIndex x z)
      ChunkMetadata.default = _
    rw [getD_set_self]
    rw [List.length_replicate]
    exact hidx
  have hpad := paddingLen_pos (enc.length + 5)
  have hsizer := postWrite_size
    (⟨1, 1, src8192.extendLen (8192 + 4096 * ((enc.length + 5) / 4096 + 1) % 65536),
      List.replicate 1024 ChunkMetadata.default,
      [true, true] ++ List.replicate ((enc.length + 5) / 4096 + 1) true⟩ : Region)
    x z 2 ⟨2, (enc.length + 5) / 4096 + 1, now % 4294967296⟩ enc
    (paddingLen (enc.length + 5)) (by omega) hidx
  have hraw := readChunkRaw_spec
    (Region.updateMetadata
      { (⟨1, 1, src8192.extendLen (8192 + 4096 * ((enc.length + 5) / 4096 + 1) % 65536),
          List.replicate 1024 ChunkMetadata.default,
          [true, true] ++ List.replicate ((enc.length + 5) / 4096 + 1) true⟩ : Region) with
          source := slabWrite
            (⟨1, 1, src8192.extendLen (8192 + 4096 * ((enc.length + 5) / 4096 + 1) % 65536),
              List.replicate 1024 ChunkMetadata.default,
              [true, true] ++ List.replicate ((enc.length + 5) / 4096 + 1) true⟩ :
                Region).source
            2 (enc.length + 1) enc (paddingLen (enc.length + 5)) }
      x z ⟨2, (enc.length + 5) / 4096 + 1, now % 4294967296⟩)
    x z 2 ((enc.length + 5) / 4096 + 1) (now % 4294967296) (enc.length + 1) 2
    hm (by omega)
    (postWrite_extract_len _ x z 2 _ enc (paddingLen (enc.length + 5)) (by omega) hidx)
    (by omega) (by omega)
    (by rw [Nat.min_def]; split <;> omega)
    (postWrite_byteAt_scheme _ x z 2 _ enc (paddingLen (enc.length + 5)) (by omega) hidx)
    (by rw [hsizer]; omega)
  rw [hw]
  refine ⟨rfl, ?_⟩
  refine readChunk_of_raw_zlib decodeGzip decodeZlib _ x z _ P hraw ?_
  rw [show enc.length + 1 - 1 = enc.length from by omega]
  rw [postWrite_extract_payload _ x z 2 _ enc (paddingLen (enc.length + 5)) (by omega) hidx]
  rw [hencdef]
  exact hinv P

/-- Witness for C3 (amended): the identity encoder, the always-ok decoder
and the one-byte payload `[7]` at slot (0, 0). -/
theorem c3_roundtrip_amended_witness :
    (∀ t : List Nat, (Except.ok t : Except Unit (List Nat)) = .ok t) ∧
    (0 : Nat) < 32 ∧ (((fun b => b) [(7 : Nat)] : List Nat)).length + 5 ≤ 1044479 ∧
    Region.readChunk (fun _ => .error ()) (fun b => .ok b)
      (freshRegion.writeChunk 0 0 ((fun b => b) [(7 : Nat)]) 0).2 0 0 = .ok [7] :=
  ⟨fun t => rfl, by omega, by decide,
    (c3_roundtrip_amended (fun _ => .error ()) (fun b => .ok b) (fun b => b) [7]
      (fun t => rfl) 0 0 0 (by omega) (by omega) (by decide)).2⟩

/-! ## Branch characterizations of `find_place` on an arbitrary region -/

theorem findPlace_extend_spec (r : Region) (x z L req st0 ct0 t0 free total : Nat)
    (hreq : sectorsRequired L = req)
    (hm : r.getMetadata x z = ⟨st0, ct0, t0⟩)
    (hne : ct0 ≠ req)
    (htotal : r.source.size / 4096 = total)
    (hscan : gapScan (setRange r.usedSectors st0 (st0 + ct0) false) req total 0 0 =
      .inr free) :
    r.findPlace x z L =
      (⟨total - free, req, 0⟩,
        { r with
            usedSectors := setRange r.usedSectors st0 (st0 + ct0) false ++
              List.replicate ((req + 256 - free) % 256) true,
            source := r.source.extendLen
              (r.source.size + 4096 * ((req + 256 - free) % 256) % 65536) }) := by
  simp only [Region.findPlace, hreq, hm, REGION_SECTOR_BYTES_LENGTH_eq, Source.len, htotal]
  rw [if_neg hne]
  rw [hscan]
  rfl

theorem findPlace_gap_spec (r : Region) (x z L req st0 ct0 t0 put total : Nat)
    (hreq : sectorsRequired L = req)
    (hm : r.getMetadata x z = ⟨st0, ct0, t0⟩)
    (hne : ct0 ≠ req)
    (htotal : r.source.size / 4096 = total)
    (hscan : gapScan (setRange r.usedSectors st0 (st0 + ct0) false) req total 0 0 =
      .inl put) :
    r.findPlace x z L =
      (⟨put, req, 0⟩,
        { r with
            usedSectors := setRange (setRange r.usedSectors st0 (st0 + ct0) false)
              put (put + req) true }) := by
  simp only [Region.findPlace, hreq, hm, REGION_SECTOR_BYTES_LENGTH_eq, Source.len, htotal]
  rw [if_neg hne]
  rw [hscan]
  rfl

/-! ## The three-write scenario: all its observable facts

Write 1 places the one-sector chunk of slot (15, 15) at sector 2 and the
bitmap becomes `[true, true, true]`.  Write 2 rewrites slot (15, 15) with a
two-sector chunk: `find_place` releases sector 2 (bitmap
`[true, true, false]`), the gap scan ends with one trailing free sector, the
source is extended by one sector and the chunk is placed at sectors 2..4 —
but only the appended sector 3 is marked used, so the bitmap is
`[true, true, false, true]` while sector 2 holds live data.  Write 3 of the
one-sector chunk of slot (1, 1) then finds the stale gap at sector 2 and
stores its slab inside slot (15, 15)'s live range. -/

theorem scenario_parametric (r1 : Region) (enc2 : List Nat)
    (hlen2 : enc2.length = 4091)
    (r1_meta : r1.chunksMetadata =
      (List.replicate 1024 ChunkMetadata.default).set 495 ⟨2, 1, 0⟩)
    (r1_used : r1.usedSectors = [true, true, true])
    (r1_size : r1.source.size = 12288) :
    (r1.writeChunk 15 15 enc2 0).1 = .ok () ∧
    ((r1.writeChunk 15 15 enc2 0).2.writeChunk 1 1 [9] 0).1 = .ok () ∧
    (r1.writeChunk 15 15 enc2 0).2.readChunkRaw 15 15 = .ok (2, enc2) ∧
    ((r1.writeChunk 15 15 enc2 0).2.writeChunk 1 1 [9] 0).2.readChunkRaw 15 15
      = .ok (2, [9]) ∧
    ((r1.writeChunk 15 15 enc2 0).2.writeChunk 1 1 [9] 0).2.getMetadata 15 15
      = ⟨2, 2, 0⟩ ∧
    ((r1.writeChunk 15 15 enc2 0).2.writeChunk 1 1 [9] 0).2.getMetadata 1 1
      = ⟨2, 1, 0⟩ := by
  -- write 2
  have hsrc2 : (if REGION_HEADER_BYTES_LENGTH > r1.source.len then
      r1.source.extendLen REGION_HEADER_BYTES_LENGTH else r1.source)
      = r1.source := by
    have hcond : ¬ (REGION_HEADER_BYTES_LENGTH > r1.source.len) := by
      rw [REGION_HEADER_BYTES_LENGTH_eq]
      show ¬ (8192 > r1.source.size)
      rw [r1_size]
      omega
    rw [if_neg hcond]
  have hm2 : r1.getMetadata 15 15 = ⟨2, 1, 0⟩ := by
    show r1.chunksMetadata.getD (metadataIndex 15 15) ChunkMetadata.default = _
    rw [r1_meta, show metadataIndex 15 15 = 495 from rfl, getD_set_self]
    rw [List.length_replicate]
    omega
  have hreq2 : sectorsRequired (enc2.length + 5) = 2 := by
    rw [hlen2]
    decide
  have htotal2 : r1.source.size / 4096 = 3 := by
    rw [r1_size]
  have hscan2 : gapScan (setRange r1.usedSectors 2 (2 + 1) false) 2 3 0 0 =
      .inr 1 := by
    rw [r1_used]
    rfl
  have hw2 : r1.writeChunk 15 15 enc2 0 = _ :=
    writeChunk_success r1 15 15 enc2 0 2 2 r1.source _ hsrc2
      (by omega)
      (findPlace_extend_spec r1 15 15 (enc2.length + 5) 2 2 1 0 1 3 hreq2 hm2
        (by omega) htotal2 hscan2)
  have r2_fst : (r1.writeChunk 15 15 enc2 0).1 = .ok () := by rw [hw2]
  have r2_meta : (r1.writeChunk 15 15 enc2 0).2.chunksMetadata =
      ((List.replicate 1024 ChunkMetadata.default).set 495 ⟨2, 1, 0⟩).set 495
        ⟨2, 2, 0⟩ := by
    rw [hw2]
    show (Region.updateMetadata _ 15 15 _).chunksMetadata = _
    rw [updateMetadata_chunksMetadata, show metadataIndex 15 15 = 495 from rfl]
    show r1.chunksMetadata.set 495 ⟨2, 2, 0⟩ = _
    rw [r1_meta]
  have r2_used : (r1.writeChunk 15 15 enc2 0).2.usedSectors =
      [true, true, false, true] := by
    rw [hw2]
    show (Region.updateMetadata _ 15 15 _).usedSectors = _
    rw [updateMetadata_usedSectors]
    show setRange r1.usedSectors 2 (2 + 1) false ++
      List.replicate ((2 + 256 - 1) % 256) true = _
    rw [r1_used]
    rfl
  have r2_size : (r1.writeChunk 15 15 enc2 0).2.source.size = 16384 := by
    rw [hw2]
    show (Region.updateMetadata _ 15 15 _).source.size = 16384
    rw [postWrite_size]
    · show max ((r1.source.extendLen
          (r1.source.size + 4096 * ((2 + 256 - 1) % 256) % 65536)).size)
        (2 * 4096 + 5 + enc2.length + paddingLen (enc2.length + 5)) = 16384
      rw [extendLen_size, r1_size, hlen2, paddingLen_eq]
      omega
    · decide
    · decide
  have hm2b : (r1.writeChunk 15 15 enc2 0).2.getMetadata 15 15 = ⟨2, 2, 0⟩ := by
    show (r1.writeChunk 15 15 enc2
      0).2.chunksMetadata.getD (metadataIndex 15 15) ChunkMetadata.default = _
    rw [r2_meta, show metadataIndex 15 15 = 495 from rfl, getD_set_self]
    rw [List.length_set, List.length_replicate]
    omega
  have h4b : (r1.writeChunk 15 15 enc2 0).2.source.extract (2 * 4096) 4 =
      natToBe4 (enc2.length + 1) := by
    rw [hw2]
    exact postWrite_extract_len _ 15 15 2 _ enc2 _ (by omega) (by decide)
  have hschb : (r1.writeChunk 15 15 enc2 0).2.source.byteAt (2 * 4096 + 4) =
      ZLIB_COMPRESSION_TYPE := by
    rw [hw2]
    exact postWrite_byteAt_scheme _ 15 15 2 _ enc2 _ (by omega) (by decide)
  have hpayb : (r1.writeChunk 15 15 enc2 0).2.source.extract (2 * 4096 + 5)
      enc2.length = enc2 := by
    rw [hw2]
    exact postWrite_extract_payload _ 15 15 2 _ enc2 _ (by omega) (by decide)
  have read2 : (r1.writeChunk 15 15 enc2 0).2.readChunkRaw 15 15 =
      .ok (2, enc2) := by
    have h := readChunkRaw_spec (r1.writeChunk 15 15 enc2 0).2 15 15 2 2 0
      (enc2.length + 1) ZLIB_COMPRESSION_TYPE hm2b (by omega) h4b (by omega) (by omega)
      (by omega) hschb (by omega)
    rw [show enc2.length + 1 - 1 = enc2.length from by omega] at h
    rw [hpayb] at h
    exact h
  -- write 3
  have hsrc3 : (if REGION_HEADER_BYTES_LENGTH >
      (r1.writeChunk 15 15 enc2 0).2.source.len then
      (r1.writeChunk 15 15 enc2 0).2.source.extendLen REGION_HEADER_BYTES_LENGTH
      else (r1.writeChunk 15 15 enc2 0).2.source)
      = (r1.writeChunk 15 15 enc2 0).2.source := by
    have hcond : ¬ (REGION_HEADER_BYTES_LENGTH >
        (r1.writeChunk 15 15 enc2 0).2.source.len) := by
      rw [REGION_HEADER_BYTES_LENGTH_eq]
      show ¬ (8192 > (r1.writeChunk 15 15 enc2 0).2.source.size)
      rw [r2_size]
      omega
    rw [if_neg hcond]
  have hm3 : (r1.writeChunk 15 15 enc2 0).2.getMetadata 1 1 = ⟨0, 0, 0⟩ := by
    show (r1.writeChunk 15 15 enc2
      0).2.chunksMetadata.getD (metadataIndex 1 1) ChunkMetadata.default = _
    rw [r2_meta, show metadataIndex 1 1 = 33 from rfl]
    rw [getD_set_ne _ _ _ (by decide : (495 : Nat) ≠ 33)]
    rw [getD_set_ne _ _ _ (by decide : (495 : Nat) ≠ 33)]
    rw [getD_replicate_self]
    rfl
  have htotal3 : (r1.writeChunk 15 15 enc2 0).2.source.size / 4096 = 4 := by
    rw [r2_size]
  have hscan3 : gapScan (setRange (r1.writeChunk 15 15 enc2 0).2.usedSectors
      0 (0 + 0) false) 1 4 0 0 = .inl 2 := by
    rw [r2_used]
    rfl
  have hw3 : (r1.writeChunk 15 15 enc2 0).2.writeChunk 1 1 [9] 0 = _ :=
    writeChunk_success (r1.writeChunk 15 15 enc2 0).2 1 1 [9] 0 2 1
      (r1.writeChunk 15 15 enc2 0).2.source _ hsrc3
      (by decide)
      (findPlace_gap_spec (r1.writeChunk 15 15 enc2 0).2 1 1
        ([(9 : Nat)].length + 5) 1 0 0 0 2 4 (by decide) hm3 (by decide) htotal3 hscan3)
  have r3_fst : ((r1.writeChunk 15 15 enc2 0).2.writeChunk 1 1 [9] 0).1 =
      .ok () := by rw [hw3]
  have r3_meta : ((r1.writeChunk 15 15 enc2 0).2.writeChunk 1 1 [9]
      0).2.chunksMetadata =
      (((List.replicate 1024 ChunkMetadata.default).set 495 ⟨2, 1, 0⟩).set 495
        ⟨2, 2, 0⟩).set 33 ⟨2, 1, 0⟩ := by
    rw [hw3]
    show (Region.updateMetadata _ 1 1 _).chunksMetadata = _
    rw [updateMetadata_chunksMetadata, show metadataIndex 1 1 = 33 from rfl]
    show (r1.writeChunk 15 15 enc2 0).2.chunksMetadata.set 33 ⟨2, 1, 0⟩ = _
    rw [r2_meta]
  have r3_size : ((r1.writeChunk 15 15 enc2 0).2.writeChunk 1 1 [9]
      0).2.source.size = 16384 := by
    rw [hw3]
    show (Region.updateMetadata _ 1 1 _).source.size = 16384
    rw [postWrite_size]
    · show max ((r1.writeChunk 15 15 enc2 0).2.source.size)
        (2 * 4096 + 5 + [(9 : Nat)].length + paddingLen ([(9 : Nat)].length + 5)) = 16384
      rw [r2_size]
      decide
    · decide
    · decide
  have g495 : ((r1.writeChunk 15 15 enc2 0).2.writeChunk 1 1 [9]
      0).2.chunksMetadata.getD 495 ChunkMetadata.default = ⟨2, 2, 0⟩ := by
    rw [r3_meta, getD_set_ne _ _ _ (by decide : (33 : Nat) ≠ 495), getD_set_self]
    rw [List.length_set, List.length_replicate]
    omega
  have g33 : ((r1.writeChunk 15 15 enc2 0).2.writeChunk 1 1 [9]
      0).2.chunksMetadata.getD 33 ChunkMetadata.default = ⟨2, 1, 0⟩ := by
    rw [r3_meta, getD_set_self]
    rw [List.length_set, List.length_set, List.length_replicate]
    omega
  have hm3b : ((r1.writeChunk 15 15 enc2 0).2.writeChunk 1 1 [9]
      0).2.getMetadata 15 15 = ⟨2, 2, 0⟩ := by
    show ((r1.writeChunk 15 15 enc2 0).2.writeChunk 1 1 [9]
      0).2.chunksMetadata.getD (metadataIndex 15 15) ChunkMetadata.default = _
    rw [show metadataIndex 15 15 = 495 from rfl]
    exact g495
  have h4c : ((r1.writeChunk 15 15 enc2 0).2.writeChunk 1 1 [9]
      0).2.source.extract (2 * 4096) 4 = natToBe4 ([(9 : Nat)].length + 1) := by
    rw [hw3]
    exact postWrite_extract_len _ 1 1 2 _ [9] _ (by omega) (by decide)
  have hschc : ((r1.writeChunk 15 15 enc2 0).2.writeChunk 1 1 [9]
      0).2.source.byteAt (2 * 4096 + 4) = ZLIB_COMPRESSION_TYPE := by
    rw [hw3]
    exact postWrite_byteAt_scheme _ 1 1 2 _ [9] _ (by omega) (by decide)
  have hpayc : ((r1.writeChunk 15 15 enc2 0).2.writeChunk 1 1 [9]
      0).2.source.extract (2 * 4096 + 5) [(9 : Nat)].length = [9] := by
    rw [hw3]
    exact postWrite_extract_payload _ 1 1 2 _ [9] _ (by omega) (by decide)
  have read3 : ((r1.writeChunk 15 15 enc2 0).2.writeChunk 1 1 [9]
      0).2.readChunkRaw 15 15 = .ok (2, [9]) := by
    have h := readChunkRaw_spec
      ((r1.writeChunk 15 15 enc2 0).2.writeChunk 1 1 [9] 0).2 15 15 2 2 0
      ([(9 : Nat)].length + 1) ZLIB_COMPRESSION_TYPE hm3b (by decide) h4c (by decide)
      (by decide) (by decide) hschc (by rw [r3_size]; decide)
    rw [show [(9 : Nat)].length + 1 - 1 = [(9 : Nat)].length from rfl] at h
    rw [hpayc] at h
    exact h
  have hm3c : ((r1.writeChunk 15 15 enc2 0).2.writeChunk 1 1 [9]
      0).2.getMetadata 1 1 = ⟨2, 1, 0⟩ := by
    show ((r1.writeChunk 15 15 enc2 0).2.writeChunk 1 1 [9]
      0).2.chunksMetadata.getD (metadataIndex 1 1) ChunkMetadata.default = _
    rw [show metadataIndex 1 1 = 33 from rfl]
    exact g33
  exact ⟨r2_fst, r3_fst, read2, read3, hm3b, hm3c⟩

theorem scenario_facts :
    scenarioW1.1 = .ok () ∧ scenarioW2.1 = .ok () ∧ scenarioW3.1 = .ok () ∧
    scenarioW2.2.readChunkRaw 15 15 = .ok (2, List.replicate 4091 7) ∧
    scenarioW3.2.readChunkRaw 15 15 = .ok (2, [9]) ∧
    scenarioW3.2.getMetadata 15 15 = ⟨2, 2, 0⟩ ∧
    scenarioW3.2.getMetadata 1 1 = ⟨2, 1, 0⟩ := by
  have hw1 : scenarioW1 = _ :=
    writeChunk_success freshRegion 15 15 [5] 0 2 1 src8192 _ fresh_hsrc (by decide)
      (findPlace_freshExt 15 15 6 1 (by decide) (by decide))
  have r1_fst : scenarioW1.1 = .ok () := by rw [hw1]
  have r1_meta : scenarioW1.2.chunksMetadata =
      (List.replicate 1024 ChunkMetadata.default).set 495 ⟨2, 1, 0⟩ := by
    rw [hw1]; rfl
  have r1_used : scenarioW1.2.usedSectors = [true, true, true] := by
    rw [hw1]; rfl
  have r1_size : scenarioW1.2.source.size = 12288 := by
    rw [hw1]
    show (Region.updateMetadata _ 15 15 _).source.size = 12288
    rw [postWrite_size]
    · show max ((src8192.extendLen (8192 + 4096 * 1 % 65536)).size)
        (2 * 4096 + 5 + [(5 : Nat)].length + paddingLen ([(5 : Nat)].length + 5)) = 12288
      rw [extendLen_size]
      decide
    · decide
    · decide
  have h := scenario_parametric scenarioW1.2 (List.replicate 4091 7)
    (List.length_replicate 4091 7) r1_meta r1_used r1_size
  exact ⟨r1_fst, h.1, h.2.1, h.2.2.1, h.2.2.2.1, h.2.2.2.2.1, h.2.2.2.2.2⟩

/-- C1: the claimed frame property of `write_chunk` fails in the code.  In
the three-write scenario (`scenarioW1`–`scenarioW3`) every
`Region.writeChunk` returns `ok`, yet the third write — to the distinct
in-range slot (1, 1) — changes what `Region.readChunkRaw` returns for the
untouched slot (15, 15): the rewrite of (15, 15) released its old sector
but `find_place`'s extend path never marked the tail of the reused free run
as used, so the later write of (1, 1) is placed inside (15, 15)'s live
slab, whose payload changes from the 4091-byte chunk to `[9]`. -/
theorem c1_write_affects_other_slot :
    scenarioW1.1 = .ok () ∧ scenarioW2.1 = .ok () ∧ scenarioW3.1 = .ok () ∧
    scenarioW2.2.readChunkRaw 15 15 = .ok (2, List.replicate 4091 7) ∧
    scenarioW3.2.readChunkRaw 15 15 = .ok (2, [9]) ∧
    scenarioW3.2.readChunkRaw 15 15 ≠ scenarioW2.2.readChunkRaw 15 15 := by
  obtain ⟨h1, h2, h3, h4, h5, -, -⟩ := scenario_facts
  refine ⟨h1, h2, h3, h4, h5, ?_⟩
  rw [h4, h5]
  intro hcontra
  rw [Except.ok.injEq, Prod.mk.injEq] at hcontra
  have hlen := congrArg List.length hcontra.2
  rw [List.length_replicate] at hlen
  exact absurd hlen (by decide)

/-- C2: the claimed no-overlap invariant fails in the code.  After the
three successful writes of the scenario (`scenarioW1`–`scenarioW3`) both
slot (15, 15) and slot (1, 1) are present (nonzero sector count in
`Region.getMetadata`), yet their sector ranges [start, start + count)
overlap: slot (15, 15) occupies [2, 4) while slot (1, 1) occupies [2, 3),
because `find_place`'s stale free bitmap handed sector 2 out twice. -/
theorem c2_overlapping_sector_ranges :
    scenarioW1.1 = .ok () ∧ scenarioW2.1 = .ok () ∧ scenarioW3.1 = .ok () ∧
    (scenarioW3.2.getMetadata 15 15).sectors ≠ 0 ∧
    (scenarioW3.2.getMetadata 1 1).sectors ≠ 0 ∧
    (scenarioW3.2.getMetadata 1 1).startSectorIndex <
      (scenarioW3.2.getMetadata 15 15).startSectorIndex +
        (scenarioW3.2.getMetadata 15 15).sectors ∧
    (scenarioW3.2.getMetadata 15 15).startSectorIndex <
      (scenarioW3.2.getMetadata 1 1).startSectorIndex +
        (scenarioW3.2.getMetadata 1 1).sectors := by
  obtain ⟨h1, h2, h3, -, -, hA, hB⟩ := scenario_facts
  refine ⟨h1, h2, h3, ?_, ?_, ?_, ?_⟩
  · rw [hA]
    decide
  · rw [hB]
    decide
  · rw [hA, hB]
    decide
  · rw [hA, hB]
    decide

end AnvilRegion
